import Mathlib

/-!
Verification development for the 5G-core teaching simulator
(`src/simulation/js/docker.js`, `src/simulation/js/ui-controller.js`).

The two JavaScript files are shallowly embedded below.  Conventions:

* Machine numbers are `Nat`/`Int`/`Rat` (JS numbers in this code are small
  integers and unit-interval random draws; no float rounding is exercised).
* `Math.random()` is modelled as a stream `r : ℕ → ℚ` of draws, with the
  hypothesis `0 ≤ r n ∧ r n < 1` where a bound is needed.
* IPv4 addresses are stored by the source as dotted-quad strings and only
  ever split into octets, compared for equality, or rebuilt from octets;
  they are embedded as a four-octet structure (`IPv4`), on which the
  source's string equality coincides with structural equality and the
  source's `isValidIP` regex becomes the octet-range check.
* The Topology Store (`window.dataStore`) is not part of the two source
  files; per the specification it is a simple keyed collection with
  whole-entity replacement.  It is modelled as lists of entities with
  `find?`/`map`/`filter`/append operations.
* Presentation-only fields (position, color, icon) and terminal output
  lines are not modelled; only the entity/topology effects and the
  reported statistics are.
-/

/-- Lifecycle status of a network function (source: `status` field,
values `starting` / `stable` / `stopped`). -/
inductive NFStatus
  | starting
  | stable
  | stopped
deriving DecidableEq

/-- The fixed enumerated set of NF types appearing in the source's
lookup tables (`ext-dn` is spelled `extdn`). -/
inductive NFType
  | NRF | AMF | SMF | UPF | AUSF | UDM | UDR | PCF | NSSF | gNB | UE | MySQL | extdn
deriving DecidableEq

/-- An IPv4 address as four octets.  The source stores dotted-quad
strings; equality of well-formed dotted-quad strings is equality of
octets, and `getNetworkFromIP` only ever reads the first three octets. -/
structure IPv4 where
  a : ℕ
  b : ℕ
  c : ℕ
  d : ℕ
deriving DecidableEq

/-- The `config` sub-object of a network function (`ipAddress`, `port`,
`httpProtocol`; `capacity`/`load` are presentation-only and omitted). -/
structure NFConfig where
  ipAddress : IPv4
  port : ℕ
  httpProtocol : String
deriving DecidableEq

/-- A network function entity as stored in the Topology Store. -/
structure NF where
  id : String
  type : NFType
  name : String
  config : NFConfig
  status : NFStatus
  statusTimestamp : ℕ
  createdAt : ℕ
deriving DecidableEq

/-- A directed logical connection between two NFs
(source: objects passed to `dataStore.addConnection`). -/
structure Connection where
  id : String
  sourceId : String
  targetId : String
  interfaceName : String
  protocol : String
  status : String
  isManual : Bool
  createdAt : ℕ
deriving DecidableEq

/-- A service bus (only the fields the embedded code reads). -/
structure Bus where
  id : String
  name : String
  connections : List String
deriving DecidableEq

/-- A link between one NF and one bus. -/
structure BusConnection where
  id : String
  nfId : String
  busId : String
  interfaceName : String
  protocol : String
  status : String
  createdAt : ℕ
deriving DecidableEq

/-- The whole mutable topology owned by the store. -/
structure SimState where
  nfs : List NF
  conns : List Connection
  buses : List Bus
  busConns : List BusConnection
deriving DecidableEq

/-- The empty topology. -/
def emptyState : SimState := ⟨[], [], [], []⟩

/-- Modelled from the spec: `dataStore.getNFById` of the external
Topology Store — first entity with the given key. -/
def getNFById (nfs : List NF) (nfId : String) : Option NF :=
  nfs.find? (fun n => decide (n.id = nfId))

/-- Modelled from the spec: `dataStore.updateNF` of the external Topology
Store — whole-entity replacement at the given key. -/
def updateNF (nfs : List NF) (nfId : String) (nf : NF) : List NF :=
  nfs.map (fun n => if n.id = nfId then nf else n)

/-- Modelled from the spec: `nfManager.deleteNetworkFunction` /
`dataStore.removeNF` — entity removal by key. -/
def removeNF (nfs : List NF) (nfId : String) : List NF :=
  nfs.filter (fun n => decide (n.id ≠ nfId))

/-! ## Reachability Simulator (`ui-controller.js`) -/

/-- Source `ui-controller.js` `isValidIP`: the dotted-quad regex, which on
the octet representation is exactly the requirement that every octet is
at most 255. -/
def isValidIP (ip : IPv4) : Bool :=
  decide (ip.a ≤ 255 ∧ ip.b ≤ 255 ∧ ip.c ≤ 255 ∧ ip.d ≤ 255)

/-- Source `ui-controller.js` `getNetworkFromIP`: the first three octets
(the /24 network of the address). -/
def getNetworkFromIP (ip : IPv4) : ℕ × ℕ × ℕ :=
  (ip.a, ip.b, ip.c)

/-- JS `Math.floor` on a rational. -/
def jsFloor (q : ℚ) : ℤ :=
  q.floor

/-- JS `Math.round`: round half away from zero upwards, i.e. the floor
of `x + 1/2`. -/
def jsRound (q : ℚ) : ℤ :=
  jsFloor (q + 1/2)

/-- Source `ui-controller.js` `generateResponseTime`:
`max(1, round(random()*50 + 1 + (random()-0.5)*10))`, with the two draws
passed explicitly. -/
def generateResponseTime (r1 r2 : ℚ) : ℤ :=
  max 1 (jsRound (r1 * 50 + 1 + (r2 - 1/2) * 10))

/-- Source `ui-controller.js` `isTargetReachable`: resolves the target
address to an NF and draws one Bernoulli trial at the selected success
probability (`r` is the `Math.random()` draw made by this call). -/
def isTargetReachable (allNFs : List NF) (sourceNf : NF) (targetIP : IPv4) (r : ℚ) : Bool :=
  match allNFs.find? (fun nf => decide (nf.config.ipAddress = targetIP)) with
  | none => decide (r < 1/10)
  | some targetNf =>
      if getNetworkFromIP sourceNf.config.ipAddress ≠ getNetworkFromIP targetIP then
        decide (r < 2/10)
      else if sourceNf.status ≠ NFStatus.stable ∨ targetNf.status ≠ NFStatus.stable then
        decide (r < 3/10)
      else
        decide (r < 9/10)

/-- Outcome of one simulated packet inside a 4-packet ping session. -/
inductive PacketOutcome
  | success (time : ℤ)
  | timeout
deriving DecidableEq

/-- Statistics reported by a ping (`Sent`, `Received`, `Lost`, loss %) -/
structure PingStats where
  sent : ℕ
  received : ℕ
  lost : ℕ
  lossPct : ℤ
deriving DecidableEq

/-- Observable outcome of `executeWindowsPing`. -/
inductive PingOutcome
  | hostNotFound
  | transmitFailed (stats : PingStats)
  | completed (results : List PacketOutcome)
deriving DecidableEq

/-- Count of successful packets (`results.filter(r => r.success)`). -/
def countReceived (results : List PacketOutcome) : ℕ :=
  (results.filter (fun p => match p with | .success _ => true | .timeout => false)).length

/-- Source `ui-controller.js` `showPingStatistics`: received/lost counts
and `lossPercentage = round(100 * failed / total)`. -/
def pingStatistics (results : List PacketOutcome) : PingStats :=
  let sent := results.length
  let received := countReceived results
  let lost := sent - received
  { sent := sent, received := received, lost := lost,
    lossPct := jsRound ((lost : ℚ) / (sent : ℚ) * 100) }

/-- Source `ui-controller.js` `executeWindowsPing`: validate the target,
fail deterministically across subnets (reporting Sent = 4, Received = 0,
Lost = 4, 100% loss without sending any packet), otherwise compute the
reachability Bernoulli trial once (consuming draw `k`) and emit 4 packets
that all share its outcome; each successful packet samples a response
time from two further draws. -/
def executeWindowsPing (allNFs : List NF) (nf : NF) (target : IPv4)
    (r : ℕ → ℚ) (k : ℕ) : PingOutcome :=
  if ¬ isValidIP target then
    .hostNotFound
  else if getNetworkFromIP nf.config.ipAddress ≠ getNetworkFromIP target then
    .transmitFailed ⟨4, 0, 4, 100⟩
  else
    .completed ((List.range 4).map (fun i =>
      if isTargetReachable allNFs nf target (r k) then
        .success (generateResponseTime (r (k + 1 + 2*i)) (r (k + 2 + 2*i)))
      else .timeout))

/-- Source `ui-controller.js` `executeWindowsPingSubnet` target list:
every other NF whose /24 network equals the source's. -/
def subnetTargets (nf : NF) (allNFs : List NF) : List NF :=
  allNFs.filter (fun otherNf =>
    decide (otherNf.id ≠ nf.id ∧
      getNetworkFromIP otherNf.config.ipAddress = getNetworkFromIP nf.config.ipAddress))

/-- Helper for `executeWindowsPingSubnet`: ping each target in order.
The per-target random draws are supplied as one stream per position (the
source consumes a single global stream; how the draws are indexed is a
modelling artifact and no theorem depends on it). -/
def pingSubnetOutcomes (allNFs : List NF) (nf : NF) (streams : ℕ → ℕ → ℚ) :
    List NF → ℕ → List PingOutcome
  | [], _ => []
  | t :: ts, i =>
      executeWindowsPing allNFs nf t.config.ipAddress (streams i) 0 ::
        pingSubnetOutcomes allNFs nf streams ts (i+1)

/-- Source `ui-controller.js` `executeWindowsPingSubnet`: filter the
topology down to same-subnet services and run `executeWindowsPing`
against each of them. -/
def executeWindowsPingSubnet (allNFs : List NF) (nf : NF) (streams : ℕ → ℕ → ℚ) :
    List PingOutcome :=
  pingSubnetOutcomes allNFs nf streams (subnetTargets nf allNFs) 0

/-! ## Address/Port Allocator (`ui-controller.js`) -/

/-- Source `ui-controller.js` `getNextAvailableIP` subnet priority list. -/
def allocatorSubnets : List (ℕ × ℕ × ℕ) :=
  [(192, 168, 1), (192, 168, 2), (192, 168, 3), (192, 168, 4)]

/-- Ascending range `start, start+1, ...` of the given length,
mirroring the source's ascending `for` loops. -/
def natRangeFrom (start : ℕ) : ℕ → List ℕ
  | 0 => []
  | n+1 => start :: natRangeFrom (start+1) n

/-- Host part range `10..254` scanned inside each subnet. -/
def allocatorHostRange : List ℕ :=
  natRangeFrom 10 245

/-- The full scan order of `getNextAvailableIP`: subnets in priority
order, hosts ascending within each. -/
def scanIPs : List IPv4 :=
  allocatorSubnets.flatMap (fun s => allocatorHostRange.map (fun h => ⟨s.1, s.2.1, s.2.2, h⟩))

/-- Source `ui-controller.js` `getNextAvailableIP`: first pool address not
among the NFs' addresses; if the pools are exhausted, a pseudo-random
fallback `192.168.(⌊r1*254⌋+1).(⌊r2*244⌋+10)`. -/
def getNextAvailableIP (allNFs : List NF) (r1 r2 : ℚ) : IPv4 :=
  match scanIPs.find? (fun ip => decide (ip ∉ allNFs.map (fun nf => nf.config.ipAddress))) with
  | some ip => ip
  | none => ⟨192, 168, (jsFloor (r1 * 254)).toNat + 1, (jsFloor (r2 * 244)).toNat + 10⟩

/-- The port range `8080..9999` scanned by `getNextAvailablePort`. -/
def portScanRange : List ℕ :=
  natRangeFrom 8080 1920

/-- Source `ui-controller.js` `getNextAvailablePort`: first port of
`8080..9999` not among the NFs' ports; if all are used, a pseudo-random
fallback `⌊r*1000⌋ + 8000`. -/
def getNextAvailablePort (allNFs : List NF) (r : ℚ) : ℕ :=
  match portScanRange.find? (fun p => decide (p ∉ allNFs.map (fun nf => nf.config.port))) with
  | some p => p
  | none => (jsFloor (r * 1000)).toNat + 8000

/-! ## Orchestration Simulator (`docker.js`) -/

/-- One entry of `getDefaultNFConfigurations`. -/
structure DefaultConfig where
  type : NFType
  ipAddress : IPv4
  port : ℕ
  httpProtocol : String
deriving DecidableEq

/-- Source `docker.js` `getDefaultNFConfigurations`: the fixed default
entity set (note that it includes the radio types `gNB` and `UE`). -/
def getDefaultNFConfigurations : List DefaultConfig :=
  [ ⟨.NRF,   ⟨192,168,1,10⟩,  8080, "HTTP/2"⟩,
    ⟨.AMF,   ⟨192,168,1,20⟩,  8080, "HTTP/2"⟩,
    ⟨.SMF,   ⟨192,168,1,30⟩,  8080, "HTTP/2"⟩,
    ⟨.UPF,   ⟨192,168,1,40⟩,  8080, "HTTP/2"⟩,
    ⟨.AUSF,  ⟨192,168,1,50⟩,  8080, "HTTP/2"⟩,
    ⟨.UDM,   ⟨192,168,1,60⟩,  8080, "HTTP/2"⟩,
    ⟨.UDR,   ⟨192,168,1,70⟩,  8080, "HTTP/2"⟩,
    ⟨.PCF,   ⟨192,168,1,80⟩,  8080, "HTTP/2"⟩,
    ⟨.NSSF,  ⟨192,168,1,90⟩,  8080, "HTTP/2"⟩,
    ⟨.MySQL, ⟨192,168,1,100⟩, 3306, "HTTP/2"⟩,
    ⟨.gNB,   ⟨192,168,1,21⟩,  8089, "HTTP/2"⟩,
    ⟨.UE,    ⟨192,168,1,22⟩,  8090, "HTTP/2"⟩ ]

/-- Source `docker.js` `serviceToNFTypeMap` (used by
`dockerComposeUpSingleNF` and `dockerComposeDownSingleNF`). -/
def serviceToNFTypeTable : List (String × NFType) :=
  [ ("oai-nrf", .NRF), ("oai-amf", .AMF), ("oai-smf", .SMF), ("oai-upf", .UPF),
    ("oai-ausf", .AUSF), ("oai-udm", .UDM), ("oai-udr", .UDR), ("oai-pcf", .PCF),
    ("oai-nssf", .NSSF), ("mysql", .MySQL), ("oai-ext-dn", .extdn),
    ("oai-gnb", .gNB), ("oai-ue", .UE) ]

/-- Source `docker.js` `serviceNameMap` of `dockerStart` / `dockerStop`
(note the `ext-dn` key differs from the up/down table's `oai-ext-dn`). -/
def startStopServiceTable : List (String × NFType) :=
  [ ("oai-amf", .AMF), ("oai-smf", .SMF), ("oai-upf", .UPF), ("oai-ausf", .AUSF),
    ("oai-udm", .UDM), ("oai-udr", .UDR), ("oai-nrf", .NRF), ("oai-pcf", .PCF),
    ("oai-nssf", .NSSF), ("mysql", .MySQL), ("ext-dn", .extdn),
    ("oai-gnb", .gNB), ("oai-ue", .UE) ]

/-- JS `String.toLowerCase()` on the ASCII service names used here. -/
def strToLower (s : String) : String :=
  String.mk (s.data.map Char.toLower)

/-- One entity of the declarative topology fixture (`one-click.json`).
The fixture file itself is not part of the repository snapshot; its
entries are modelled with the fields the embedded code reads. -/
structure TopoNF where
  id : String
  type : NFType
  name : String
  ipAddress : Option IPv4
  port : Option ℕ
  httpProtocol : Option String
  status : NFStatus
  statusTimestamp : ℕ
deriving DecidableEq

/-- A fixture connection entry. -/
structure TopoConnection where
  sourceId : String
  targetId : String
  interfaceName : String
deriving DecidableEq

/-- A fixture bus-connection entry. -/
structure TopoBusConnection where
  id : String
  nfId : String
  busId : String
  interfaceName : String
  protocol : String
  status : String
  createdAt : ℕ
deriving DecidableEq

/-- The declarative topology fixture as structured data
(entity list + connection list + bus list + bus-connection list). -/
structure TopoFixture where
  nfs : List TopoNF
  connections : List TopoConnection
  buses : List Bus
  busConnections : List TopoBusConnection
deriving DecidableEq

/-- List-of-characters test that `pat` occurs at the start of `hay`. -/
def charsStartWith : List Char → List Char → Bool
  | [], _ => true
  | _ :: _, [] => false
  | a :: as, b :: bs => a = b && charsStartWith as bs

/-- List-of-characters substring test. -/
def charsInclude (pat : List Char) : List Char → Bool
  | [] => charsStartWith pat []
  | hay@(_ :: rest) => charsStartWith pat hay || charsInclude pat rest

/-- JS `hay.includes(pat)` on strings. -/
def strIncludes (hay pat : String) : Bool :=
  charsInclude pat.data hay.data

/-- Source `docker.js` `filterTopology` service-bus interface list. -/
def serviceBusInterfaces : List String :=
  [ "Nnrf_NFManagement", "Nnrf_NFDiscovery", "Nnrf", "Namf", "Nsmf",
    "Nausf", "Nudm", "Npcf", "Nnssf", "Nudr" ]

/-- Source `docker.js` `filterTopology`: drop radio-access NFs (`gNB`,
`UE`), drop connections touching them or duplicating a same-bus
control-plane interface, and drop their bus links. -/
def filterTopology (t : TopoFixture) : TopoFixture :=
  let filteredNFs := t.nfs.filter (fun nf => decide (nf.type ≠ .gNB ∧ nf.type ≠ .UE))
  let serviceBusNFIds :=
    (t.buses.flatMap (fun bus => bus.connections)) ++ (t.busConnections.map (fun bc => bc.nfId))
  let excludedNFIds :=
    ((t.nfs.filter (fun nf => decide (nf.type = .gNB ∨ nf.type = .UE))).map (fun nf => nf.id))
  let conns := t.connections.filter (fun conn =>
    if excludedNFIds.contains conn.sourceId ∨ excludedNFIds.contains conn.targetId then
      false
    else if (serviceBusNFIds.contains conn.sourceId ∧ serviceBusNFIds.contains conn.targetId)
        ∧ serviceBusInterfaces.any (fun iface => strIncludes conn.interfaceName iface) then
      false
    else
      true)
  let busConns := t.busConnections.filter (fun bc => ¬ excludedNFIds.contains bc.nfId)
  let buses := t.buses.map (fun bus =>
    { bus with connections := bus.connections.filter (fun nfId => ¬ excludedNFIds.contains nfId) })
  { nfs := filteredNFs, connections := conns, buses := buses, busConnections := busConns }

/-- Modelled from the spec: `nfManager.createNetworkFunction` (the
`nf-manager.js` file is not part of the repository snapshot).  Per the
specification it creates an entity of the given type with an
auto-generated `"type-counter"` name in `starting` state; every embedded
call site immediately overwrites address, port, protocol and timestamps,
so those fields are placeholders here.  The JS sequence
"create (which inserts the entity), mutate its fields, `updateNF` with
itself" is collapsed into appending the final entity at each call site. -/
def nfTypeName : NFType → String
  | .NRF => "NRF"
  | .AMF => "AMF"
  | .SMF => "SMF"
  | .UPF => "UPF"
  | .AUSF => "AUSF"
  | .UDM => "UDM"
  | .UDR => "UDR"
  | .PCF => "PCF"
  | .NSSF => "NSSF"
  | .gNB => "gNB"
  | .UE => "UE"
  | .MySQL => "MySQL"
  | .extdn => "ext-dn"

/-- Modelled from the spec: the entity produced by
`nfManager.createNetworkFunction` (see `nfTypeName` above for context). -/
def createNetworkFunction (genId : String) (t : NFType) (counter : ℕ) : NF :=
  { id := genId, type := t, name := nfTypeName t ++ "-" ++ toString counter,
    config := ⟨⟨0,0,0,0⟩, 0, "HTTP/2"⟩,
    status := .starting, statusTimestamp := 0, createdAt := 0 }

/-- Overwrites applied after factory creation by the `docker.js` compose
paths: default address/port/protocol, fresh timestamps, `starting`. -/
def applyDefaultCfg (nf : NF) (c : DefaultConfig) (now : ℕ) : NF :=
  { nf with
    config := ⟨c.ipAddress, c.port, c.httpProtocol⟩,
    createdAt := now, status := .starting, statusTimestamp := now }

/-- Conversion of an imported fixture entity into a stored NF
(`dockerComposeUp` sets `createdAt = importTime` on each before
importing; config fields absent from the fixture are JS `undefined`,
modelled by the zero address / port 0). -/
def topoNFtoNF (t : TopoNF) (now : ℕ) : NF :=
  { id := t.id, type := t.type, name := t.name,
    config := ⟨t.ipAddress.getD ⟨0,0,0,0⟩, t.port.getD 0, t.httpProtocol.getD "HTTP/2"⟩,
    status := t.status, statusTimestamp := t.statusTimestamp, createdAt := now }

/-- Modelled from the spec: `dataStore.importData` of the external
Topology Store — adds every entity of the (already filtered) fixture. -/
def importData (t : TopoFixture) (now : ℕ) (st : SimState) : SimState :=
  { st with
    nfs := st.nfs ++ t.nfs.map (fun n => topoNFtoNF n now),
    conns := st.conns ++ t.connections.map (fun c =>
      { id := "", sourceId := c.sourceId, targetId := c.targetId,
        interfaceName := c.interfaceName, protocol := "HTTP/2",
        status := "connected", isManual := false, createdAt := now }),
    buses := st.buses ++ t.buses,
    busConns := st.busConns ++ t.busConnections.map (fun bc =>
      { id := bc.id, nfId := bc.nfId, busId := bc.busId,
        interfaceName := bc.interfaceName, protocol := bc.protocol,
        status := bc.status, createdAt := bc.createdAt }) }

/-- Source `docker.js` `createDefaultNFs`: create one NF per default
configuration, overwriting address/port/protocol and `createdAt` after
factory creation (`ids` supplies the generated entity keys). -/
def createDefaultNFsFrom (ids : ℕ → String) (now : ℕ) :
    List DefaultConfig → ℕ → SimState → SimState
  | [], _, st => st
  | c :: rest, k, st =>
      let nf := createNetworkFunction (ids k) c.type (st.nfs.length + 1)
      let nf := { nf with config := ⟨c.ipAddress, c.port, c.httpProtocol⟩, createdAt := now }
      createDefaultNFsFrom ids now rest (k+1) { st with nfs := st.nfs ++ [nf] }

/-- Source `docker.js` `createDefaultNFs` applied to the full default
configuration list. -/
def createDefaultNFs (ids : ℕ → String) (now : ℕ) (st : SimState) : SimState :=
  createDefaultNFsFrom ids now getDefaultNFConfigurations 0 st

/-- Source `docker.js` `ensureNFConnectedToBus`: for every fixture
bus-connection matching this NF (by id, or by the type of the fixture
entity owning it), ensure the bus exists and add the bus link unless one
already exists for this `(nf, bus)` pair. -/
def ensureNFConnectedToBus (ft : TopoFixture) (nf : NF) (st : SimState) : SimState :=
  let connsForThisNF := ft.busConnections.filter (fun bc =>
    decide (bc.nfId = nf.id) ||
      (match ft.nfs.find? (fun n => decide (n.id = bc.nfId)) with
       | some n => decide (n.type = nf.type)
       | none => false))
  connsForThisNF.foldl (fun st bc =>
    match ft.buses.find? (fun b => decide (b.id = bc.busId)) with
    | none => st
    | some bus =>
        let st :=
          if (st.buses.find? (fun b => decide (b.id = bus.id))).isSome then st
          else { st with buses := st.buses ++ [bus] }
        if st.busConns.any (fun c => decide (c.nfId = nf.id ∧ c.busId = bc.busId)) then st
        else { st with busConns := st.busConns ++
          [{ id := bc.id, nfId := nf.id, busId := bc.busId,
             interfaceName := bc.interfaceName, protocol := bc.protocol,
             status := bc.status, createdAt := bc.createdAt }] }) st

/-- The per-missing-configuration loop of `dockerComposeUp` (lines
465--524): for each default configuration whose type is absent, create
the NF from the re-fetched topology entry if present, else via the
factory, then wire it to its fixture bus when topology data is
available.  `ft2` is the already filtered re-fetch result; `ids`
supplies generated entity keys. -/
def bringUpMissing (ft2 : Option TopoFixture) (ids : ℕ → String) (now : ℕ) :
    List DefaultConfig → ℕ → SimState → SimState
  | [], _, st => st
  | c :: rest, k, st =>
      let st' :=
        match ft2.bind (fun f => f.nfs.find? (fun n => decide (n.type = c.type))) with
        | some tn =>
            let nf : NF :=
              { id := tn.id, type := c.type, name := tn.name,
                config := ⟨c.ipAddress, c.port, c.httpProtocol⟩,
                status := .starting, statusTimestamp := now, createdAt := now }
            let st1 := { st with nfs := st.nfs ++ [nf] }
            match ft2 with
            | some f => ensureNFConnectedToBus f nf st1
            | none => st1
        | none =>
            let nf := applyDefaultCfg (createNetworkFunction (ids k) c.type (st.nfs.length + 1)) c now
            let st1 := { st with nfs := st.nfs ++ [nf] }
            match ft2 with
            | some f => ensureNFConnectedToBus f nf st1
            | none => st1
      bringUpMissing ft2 ids now rest (k+1) st'

/-- Source `docker.js` `dockerComposeUp` (state effects): on an empty
topology import the filtered fixture (or fall back to the fixed default
entity set when the fetch fails); otherwise create exactly the default
configurations whose type is missing, and do nothing at all when none is
missing.  `fetch1` is the first fetch of `one-click.json` and `fetch2`
the re-fetch done for NF positioning in the missing-configuration
branch (`none` = fetch failure). -/
def dockerComposeUp (fetch1 fetch2 : Option TopoFixture) (ids : ℕ → String)
    (now : ℕ) (st : SimState) : SimState :=
  let existingTypes := st.nfs.map (fun nf => nf.type)
  let missingConfigs := getDefaultNFConfigurations.filter
    (fun c => decide (c.type ∉ existingTypes))
  if st.nfs.isEmpty then
    match fetch1 with
    | some topo => importData (filterTopology topo) now st
    | none => createDefaultNFs ids now st
  else if missingConfigs.isEmpty then st
  else bringUpMissing (fetch2.map filterTopology) ids now missingConfigs 0 st

/-! ## Auto-Wiring Policy and Lifecycle Controller (`docker.js`) -/

/-- The connection object appended by the `addConnection` helper inside
`autoConnectUPFToSMFAndExtDn`. -/
def mkAutoConnection (cid : String) (now : ℕ) (src tgt iface : String) : Connection :=
  { id := cid, sourceId := src, targetId := tgt, interfaceName := iface,
    protocol := "HTTP/2", status := "connected", isManual := false, createdAt := now }

/-- Source `docker.js` `autoConnectUPFToSMFAndExtDn`'s `addConnection`
helper: skip when any connection already links the two endpoints in
either direction (regardless of interface name), else append. -/
def addConnectionOp (cid : String) (now : ℕ) (src tgt iface : String) (st : SimState) : SimState :=
  if st.conns.any (fun c =>
      decide ((c.sourceId = src ∧ c.targetId = tgt) ∨ (c.sourceId = tgt ∧ c.targetId = src))) then
    st
  else
    { st with conns := st.conns ++ [mkAutoConnection cid now src tgt iface] }

/-- The entity built by `createNFFromTopology` inside
`autoConnectUPFToSMFAndExtDn`: fields from the fixture entry for the
type when available, else from the given default configuration, with the
`ext-dn` port forced to 80; created directly in `stable` state. -/
def buildNFFromTopology (topo : Option TopoFixture) (genId : String) (now : ℕ)
    (t : NFType) (defaultConfig : Option DefaultConfig) : NF :=
  let topoNF := topo.bind (fun tp => tp.nfs.find? (fun n => decide (n.type = t)))
  let cfg :=
    match defaultConfig with
    | some c => some c
    | none => getDefaultNFConfigurations.find? (fun c => decide (c.type = t))
  let nf : NF :=
    { id := match topoNF with | some tn => tn.id | none => genId,
      type := t,
      name := match topoNF with | some tn => tn.name | none => nfTypeName t ++ "-1",
      config :=
        ⟨(cfg.map (fun c => c.ipAddress)).getD ⟨192,168,1,12⟩,
         (cfg.map (fun c => c.port)).getD 8080,
         "HTTP/2"⟩,
      status := .stable, statusTimestamp := now, createdAt := now }
  if t = .extdn then { nf with config := { nf.config with port := 80 } } else nf

/-- Source `docker.js` `createNFFromTopology` (inside the UPF wiring):
build the entity and append it to the store. -/
def createNFFromTopology (topo : Option TopoFixture) (genId : String) (now : ℕ)
    (t : NFType) (defaultConfig : Option DefaultConfig) (st : SimState) : NF × SimState :=
  let nf := buildNFFromTopology topo genId now t defaultConfig
  (nf, { st with nfs := st.nfs ++ [nf] })

/-- The default configuration literal passed for `ext-dn` by
`autoConnectUPFToSMFAndExtDn`. -/
def extDnDefaultConfig : DefaultConfig :=
  ⟨.extdn, ⟨192,168,1,15⟩, 80, "HTTP/2"⟩

/-- Source `docker.js` `autoConnectUPFToSMFAndExtDn`: when the given
entity is a UPF, ensure an SMF and an ext-dn exist (creating them from
the fetched topology entry or a default configuration when absent) and
ensure a UPF→SMF "N4" connection and an ext-dn→UPF "N6" connection
exist.  `topo` is the fetch result (`none` = fetch failure, in which
case `filterTopology` was never applied); `ids 0`/`ids 1` are the
generated entity keys and `ids 2`/`ids 3` the generated connection
keys. -/
def autoConnectUPFToSMFAndExtDn (topo : Option TopoFixture) (ids : ℕ → String)
    (now : ℕ) (upf : NF) (st : SimState) : SimState :=
  if upf.type ≠ .UPF then st
  else
    let allNFs := st.nfs
    let smfSt :=
      match allNFs.find? (fun n => decide (n.type = .SMF)) with
      | some n => (n, st)
      | none =>
          createNFFromTopology topo (ids 0) now NFType.SMF
            (getDefaultNFConfigurations.find? (fun c => decide (c.type = NFType.SMF))) st
    let extSt :=
      match allNFs.find? (fun n => decide (n.type = .extdn)) with
      | some n => (n, smfSt.2)
      | none => createNFFromTopology topo (ids 1) now NFType.extdn (some extDnDefaultConfig) smfSt.2
    let st3 := addConnectionOp (ids 2) now upf.id smfSt.1.id ("N4") extSt.2
    addConnectionOp (ids 3) now extSt.1.id upf.id ("N6") st3

/-- The entity update performed by the stabilization `setTimeout`
handler on a still-existing entity: status set to `stable`
unconditionally, `createdAt` backfilled from the captured entity when
the stored one has none (JS falsy, i.e. 0 here); `cap` is the
`createdAt` captured by the closure. -/
def stabilizedNF (now cap : ℕ) (nf : NF) : NF :=
  let nf1 := { nf with status := NFStatus.stable, statusTimestamp := now }
  if nf1.createdAt = 0 ∧ cap ≠ 0 then { nf1 with createdAt := cap } else nf1

/-- Source `docker.js` stabilization `setTimeout` handler (shared shape
of `dockerComposeUp`, `dockerStart` and `dockerComposeUpSingleNF`):
re-read the entity by id; if it is gone, do nothing; otherwise apply
`stabilizedNF` and trigger the UPF wiring when the entity is a UPF.
`topo` is the fetch result seen by the wiring. -/
def stabilizeTimerHandler (topo : Option TopoFixture) (ids : ℕ → String)
    (now cap : ℕ) (nfId : String) (st : SimState) : SimState :=
  match getNFById st.nfs nfId with
  | none => st
  | some nf =>
      let nf2 := stabilizedNF now cap nf
      let st' := { st with nfs := updateNF st.nfs nfId nf2 }
      if nf2.type = .UPF then autoConnectUPFToSMFAndExtDn topo ids now nf2 st' else st'

/-- Source `docker.js` `dockerStop`: resolve the service name through the
start/stop table, and set the matching entity's status to `stopped`;
unknown or absent services leave the state unchanged. -/
def dockerStop (serviceName : String) (now : ℕ) (st : SimState) : SimState :=
  let nfType := startStopServiceTable.lookup (strToLower serviceName)
  match st.nfs.find? (fun n => decide (some n.type = nfType)) with
  | none => st
  | some nf =>
      { st with nfs := updateNF st.nfs nf.id { nf with status := .stopped, statusTimestamp := now } }

/-! ## Single-service bring-up (`docker.js` `dockerComposeUpSingleNF`) -/

/-- Result reported by `dockerComposeUpSingleNF`. -/
inductive UpSingleResult
  | unknownService
  | conflict (t : NFType)
  | jsError
  | started (nf : NF)
deriving DecidableEq

/-- Source `docker.js` `dockerComposeUpSingleNF`: resolve the service
name (error and no state change when unmapped), error and no state
change when an entity of the type already exists, otherwise create the
entity from the filtered fixture entry (re-wiring every NF to its
fixture bus after clearing all buses) or from the factory plus the
default configuration.  The factory branch dereferences the default
configuration unconditionally, which in JS throws a `TypeError` when the
type has no default entry (only `ext-dn` is in that situation); this is
modelled by the `jsError` result after the factory entity was already
inserted. -/
def dockerComposeUpSingleNF (topo : Option TopoFixture) (ids : ℕ → String)
    (now : ℕ) (serviceName : String) (st : SimState) : UpSingleResult × SimState :=
  match serviceToNFTypeTable.lookup (strToLower serviceName) with
  | none => (.unknownService, st)
  | some nfType =>
      match st.nfs.find? (fun nf => decide (nf.type = nfType)) with
      | some _ => (.conflict nfType, st)
      | none =>
          let ft := topo.map filterTopology
          let topoNF := ft.bind (fun f => f.nfs.find? (fun nf => decide (nf.type = nfType)))
          let defaultConfig := getDefaultNFConfigurations.find? (fun c => decide (c.type = nfType))
          match topoNF with
          | some tn =>
              let nf : NF :=
                { id := tn.id, type := nfType, name := tn.name,
                  config :=
                    ⟨(tn.ipAddress.orElse (fun _ => defaultConfig.map (fun c => c.ipAddress))).getD ⟨0,0,0,0⟩,
                     (tn.port.orElse (fun _ => defaultConfig.map (fun c => c.port))).getD 0,
                     tn.httpProtocol.getD "HTTP/2"⟩,
                  status := .starting, statusTimestamp := now, createdAt := now }
              let st1 := { st with nfs := st.nfs ++ [nf] }
              let st2 :=
                match ft with
                | some f =>
                    let cleared := { st1 with buses := [], busConns := [] }
                    (cleared.nfs.foldl (fun acc n => ensureNFConnectedToBus f n acc) cleared)
                | none => st1
              (.started nf, st2)
          | none =>
              let raw := createNetworkFunction (ids 0) nfType (st.nfs.length + 1)
              match defaultConfig with
              | none => (.jsError, { st with nfs := st.nfs ++ [raw] })
              | some cfg =>
                  let nf := applyDefaultCfg raw cfg now
                  (.started nf, { st with nfs := st.nfs ++ [nf] })

/-! ## Shared concrete sample entities for witnesses and counterexamples -/

/-- A concrete NF with the given identity, type, status, address and
port (protocol fixed, timestamps zero). -/
def mkSampleNF (i : String) (t : NFType) (s : NFStatus) (ip : IPv4) (port : ℕ) : NF :=
  { id := i, type := t, name := i, config := ⟨ip, port, "HTTP/2"⟩,
    status := s, statusTimestamp := 0, createdAt := 0 }

/-- A concrete stable AMF at 192.168.1.20. -/
def sampleAMF : NF := mkSampleNF ("amf-1") .AMF .stable ⟨192,168,1,20⟩ 8080

/-- A concrete stable gNB at 192.168.1.21. -/
def sampleGNB : NF := mkSampleNF ("gnb-1") .gNB .stable ⟨192,168,1,21⟩ 8089

/-- Spec-side definition following claim C6's words: the per-packet
success probability is 0.10 if no NF owns the target address; else 0.20
if the source's and target's /24 networks differ; else 0.30 if either
endpoint's status is not stable; else 0.90. -/
def reachSuccessProbability (allNFs : List NF) (sourceNf : NF) (targetIP : IPv4) : ℚ :=
  if ¬ ∃ nf ∈ allNFs, nf.config.ipAddress = targetIP then 1/10
  else if getNetworkFromIP sourceNf.config.ipAddress ≠ getNetworkFromIP targetIP then 2/10
  else if sourceNf.status ≠ NFStatus.stable ∨
      ∃ nf ∈ allNFs, nf.config.ipAddress = targetIP ∧ nf.status ≠ NFStatus.stable then 3/10
  else 9/10

/-- An NF occupying one pool address (used to build the exhausted
topology of claim C4's counterexample). -/
def poolNF (ip : IPv4) : NF :=
  mkSampleNF ("pool") .NRF .stable ip 8080

/-- A topology whose NFs occupy every address of the allocator pools. -/
def exhaustedIPNFs : List NF := scanIPs.map poolNF

/-- An NF occupying one pool port. -/
def portPoolNF (p : ℕ) : NF :=
  mkSampleNF ("pool") .NRF .stable ⟨192,168,1,10⟩ p

/-- A topology whose NFs occupy every port of `8080..9999`. -/
def exhaustedPortNFs : List NF := portScanRange.map portPoolNF

/-- The SMF entity the UPF wiring creates when none exists (fixture
entry or the SMF default configuration). -/
def autoWiredSMF (topo : Option TopoFixture) (ids : ℕ → String) (now : ℕ) : NF :=
  buildNFFromTopology topo (ids 0) now NFType.SMF
    (getDefaultNFConfigurations.find? (fun c => decide (c.type = NFType.SMF)))

/-- The ext-dn entity the UPF wiring creates when none exists. -/
def autoWiredExtDn (topo : Option TopoFixture) (ids : ℕ → String) (now : ℕ) : NF :=
  buildNFFromTopology topo (ids 1) now NFType.extdn (some extDnDefaultConfig)

/-- A concrete stable UPF at 192.168.1.40. -/
def sampleUPF : NF := mkSampleNF ("upf-1") .UPF .stable ⟨192,168,1,40⟩ 8080

/-- A one-entity topology holding only the stable UPF. -/
def sampleUPFState : SimState := ⟨[sampleUPF], [], [], []⟩

/-! ## Claim C5 -/

/-- C5: for every syntactically valid target address whose /24 network
(first three octets) differs from the source NF's, the subnet-restricted
command ping sends no simulated packets and deterministically reports
Sent = 4, Received = 0, Lost = 4 (100% loss) — for every random stream
and stream position, i.e. independent of any random draw. -/
theorem cross_subnet_ping_transmit_failed (allNFs : List NF) (nf : NF) (target : IPv4)
    (r : ℕ → ℚ) (k : ℕ)
    (hv : isValidIP target = true)
    (hx : getNetworkFromIP nf.config.ipAddress ≠ getNetworkFromIP target) :
    executeWindowsPing allNFs nf target r k = .transmitFailed ⟨4, 0, 4, 100⟩ := by
  simp [executeWindowsPing, hv, hx]

/-- Witness for C5: a stable AMF at 192.168.1.20 pinging 10.0.0.1. -/
theorem cross_subnet_ping_transmit_failed_witness :
    executeWindowsPing [sampleAMF] sampleAMF ⟨10,0,0,1⟩ (fun _ => 0) 0
      = .transmitFailed ⟨4, 0, 4, 100⟩ :=
  cross_subnet_ping_transmit_failed [sampleAMF] sampleAMF ⟨10,0,0,1⟩ (fun _ => 0) 0
    (by decide) (by decide)

/-! ## Claim C6 -/

/-- C6: under the data-model invariant that live NF addresses are
distinct, the code's reachability trial succeeds exactly when the draw
is below the spec's case-ordered probability (0.10 unowned target /
0.20 different network / 0.30 endpoint unstable / 0.90 otherwise). -/
theorem reachability_probability_cases (allNFs : List NF) (sourceNf : NF) (targetIP : IPv4)
    (hnd : (allNFs.map (fun nf => nf.config.ipAddress)).Nodup) (r : ℚ) :
    isTargetReachable allNFs sourceNf targetIP r
      = decide (r < reachSuccessProbability allNFs sourceNf targetIP) := by
  unfold isTargetReachable reachSuccessProbability
  cases hfind : allNFs.find? (fun nf => decide (nf.config.ipAddress = targetIP)) with
  | none =>
      have hno : ¬ ∃ nf ∈ allNFs, nf.config.ipAddress = targetIP := by
        rw [List.find?_eq_none] at hfind
        rintro ⟨nf2, hmem, heq⟩
        have hne : ¬ nf2.config.ipAddress = targetIP := by simpa using hfind nf2 hmem
        exact hne heq
      simp [hno]
  | some tnf =>
      have hmem : tnf ∈ allNFs := List.mem_of_find?_eq_some hfind
      have hip : tnf.config.ipAddress = targetIP := by
        simpa using List.find?_some hfind
      have hex : ∃ nf ∈ allNFs, nf.config.ipAddress = targetIP := ⟨tnf, hmem, hip⟩
      have huniq : ∀ nf2 ∈ allNFs, nf2.config.ipAddress = targetIP → nf2 = tnf := by
        intro nf2 hm he
        exact List.inj_on_of_nodup_map hnd hm hmem (by rw [he, hip])
      by_cases hnet : getNetworkFromIP sourceNf.config.ipAddress ≠ getNetworkFromIP targetIP
      · simp [hex, hnet]
      · by_cases hst : sourceNf.status ≠ NFStatus.stable ∨ tnf.status ≠ NFStatus.stable
        · have hst' : sourceNf.status ≠ NFStatus.stable ∨
              ∃ nf ∈ allNFs, nf.config.ipAddress = targetIP ∧ nf.status ≠ NFStatus.stable := by
            rcases hst with h | h
            · exact Or.inl h
            · exact Or.inr ⟨tnf, hmem, hip, h⟩
          simp [hex, hnet, hst, hst']
        · have hst' : ¬ (sourceNf.status ≠ NFStatus.stable ∨
              ∃ nf ∈ allNFs, nf.config.ipAddress = targetIP ∧ nf.status ≠ NFStatus.stable) := by
            push_neg at hst ⊢
            refine ⟨hst.1, ?_⟩
            intro nf2 hm he
            rw [huniq nf2 hm he]
            exact hst.2
          simp [hex, hnet, hst, hst']

/-- Witness for C6: distinct-address topology with a stable AMF pinging
the stable gNB's address at draw 1/2 (same subnet, both stable: the
trial succeeds because 1/2 < 0.90). -/
theorem reachability_probability_cases_witness :
    isTargetReachable [sampleAMF, sampleGNB] sampleAMF ⟨192,168,1,21⟩ (1/2)
      = decide ((1:ℚ)/2 < reachSuccessProbability [sampleAMF, sampleGNB] sampleAMF ⟨192,168,1,21⟩) :=
  reachability_probability_cases [sampleAMF, sampleGNB] sampleAMF ⟨192,168,1,21⟩ (by decide) (1/2)

/-! ## Claim C10 -/

/-- Helper: a per-target ping whose target is one of the subnet-scan's
pre-filtered targets never takes the deterministic cross-subnet branch,
and reaches the probabilistic 4-packet path whenever the target address
is syntactically valid. -/
theorem ping_of_subnet_target (allNFs : List NF) (nf t : NF) (r : ℕ → ℚ) (k : ℕ)
    (ht : t ∈ subnetTargets nf allNFs) :
    (∀ stats, executeWindowsPing allNFs nf t.config.ipAddress r k ≠ .transmitFailed stats) ∧
    (isValidIP t.config.ipAddress = true →
      ∃ results, executeWindowsPing allNFs nf t.config.ipAddress r k = .completed results) := by
  have hp := List.of_mem_filter ht
  have hnet : getNetworkFromIP nf.config.ipAddress = getNetworkFromIP t.config.ipAddress :=
    ((of_decide_eq_true hp).2).symm
  constructor
  · intro stats
    by_cases hv : isValidIP t.config.ipAddress = true
    · simp [executeWindowsPing, hv, hnet]
    · simp [executeWindowsPing, hv]
  · intro hv
    refine ⟨(List.range 4).map (fun i =>
      if isTargetReachable allNFs nf t.config.ipAddress (r k) then
        PacketOutcome.success (generateResponseTime (r (k + 1 + 2*i)) (r (k + 2 + 2*i)))
      else PacketOutcome.timeout), ?_⟩
    simp [executeWindowsPing, hv, hnet]

/-- Helper: every outcome produced by the subnet-scan loop comes from a
per-target ping against one of the pre-filtered same-subnet targets. -/
theorem pingSubnetOutcomes_mem (allNFs : List NF) (nf : NF) (streams : ℕ → ℕ → ℚ)
    (ts : List NF) (i : ℕ) (o : PingOutcome)
    (hts : ∀ x ∈ ts, x ∈ subnetTargets nf allNFs)
    (ho : o ∈ pingSubnetOutcomes allNFs nf streams ts i) :
    ∃ t s, t ∈ subnetTargets nf allNFs ∧
      o = executeWindowsPing allNFs nf t.config.ipAddress s 0 := by
  induction ts generalizing i with
  | nil => simp [pingSubnetOutcomes] at ho
  | cons x xs ih =>
      rw [pingSubnetOutcomes] at ho
      rcases List.mem_cons.mp ho with h | h
      · exact ⟨x, streams i, hts x (List.mem_cons_self x xs), h⟩
      · exact ih (i+1) (fun y hy => hts y (List.mem_cons_of_mem x hy)) h

/-- C10: every target tested by the ping-subnet scan shares the source's
/24 network by construction of the pre-filter, so no outcome of the scan
is ever the deterministic cross-subnet transmit-failed report; and when
the stored NF addresses are syntactically valid, every per-target ping
the scan invokes proceeds to the probabilistic 4-packet path. -/
theorem subnet_scan_never_hits_cross_subnet_branch (allNFs : List NF) (nf : NF)
    (streams : ℕ → ℕ → ℚ) :
    (∀ o ∈ executeWindowsPingSubnet allNFs nf streams, ∀ stats, o ≠ .transmitFailed stats) ∧
    ((∀ m ∈ allNFs, isValidIP m.config.ipAddress = true) →
      ∀ o ∈ executeWindowsPingSubnet allNFs nf streams, ∃ results, o = .completed results) := by
  constructor
  · intro o ho stats
    obtain ⟨t, s, hmem, rfl⟩ :=
      pingSubnetOutcomes_mem allNFs nf streams (subnetTargets nf allNFs) 0 o
        (fun x hx => hx) ho
    exact (ping_of_subnet_target allNFs nf t s 0 hmem).1 stats
  · intro hvalid o ho
    obtain ⟨t, s, hmem, rfl⟩ :=
      pingSubnetOutcomes_mem allNFs nf streams (subnetTargets nf allNFs) 0 o
        (fun x hx => hx) ho
    have htin : t ∈ allNFs := List.mem_of_mem_filter hmem
    exact (ping_of_subnet_target allNFs nf t s 0 hmem).2 (hvalid t htin)

/-- Witness for C10: the AMF scanning its /24 subnet containing the gNB;
the scan's single per-target ping completes a probabilistic session. -/
theorem subnet_scan_never_hits_cross_subnet_branch_witness :
    ∃ results,
      executeWindowsPing [sampleAMF, sampleGNB] sampleAMF sampleGNB.config.ipAddress
        (fun _ => 0) 0 = .completed results :=
  (subnet_scan_never_hits_cross_subnet_branch [sampleAMF, sampleGNB] sampleAMF
      (fun _ _ => 0)).2 (by decide)
    (executeWindowsPing [sampleAMF, sampleGNB] sampleAMF sampleGNB.config.ipAddress
      (fun _ => 0) 0) (List.mem_cons_self _ _)

/-! ## Claim C4 -/

/-- C4 (amended part): whenever some pool value is still unused —
i.e. outside the exhausted case — the allocators return a value not
present among the in-use addresses respectively ports derived from the
current topology. -/
theorem allocators_avoid_in_use_when_pool_not_exhausted (allNFs : List NF) (r1 r2 r3 : ℚ)
    (h1 : ∃ ip ∈ scanIPs, ip ∉ allNFs.map (fun nf => nf.config.ipAddress))
    (h2 : ∃ p ∈ portScanRange, p ∉ allNFs.map (fun nf => nf.config.port)) :
    getNextAvailableIP allNFs r1 r2 ∉ allNFs.map (fun nf => nf.config.ipAddress) ∧
    getNextAvailablePort allNFs r3 ∉ allNFs.map (fun nf => nf.config.port) := by
  constructor
  · unfold getNextAvailableIP
    cases hf : scanIPs.find? (fun ip =>
        decide (ip ∉ allNFs.map (fun nf => nf.config.ipAddress))) with
    | none =>
        exfalso
        rw [List.find?_eq_none] at hf
        obtain ⟨ip, hmem, hnotin⟩ := h1
        have hin : ip ∈ allNFs.map (fun nf => nf.config.ipAddress) := by
          simpa using hf ip hmem
        exact hnotin hin
    | some ip =>
        simp only [hf]
        simpa using List.find?_some hf
  · unfold getNextAvailablePort
    cases hf : portScanRange.find? (fun p =>
        decide (p ∉ allNFs.map (fun nf => nf.config.port))) with
    | none =>
        exfalso
        rw [List.find?_eq_none] at hf
        obtain ⟨p, hmem, hnotin⟩ := h2
        have hin : p ∈ allNFs.map (fun nf => nf.config.port) := by
          simpa using hf p hmem
        exact hnotin hin
    | some p =>
        simp only [hf]
        simpa using List.find?_some hf

set_option maxRecDepth 8000 in
/-- Witness for C4's amended theorem: with only the AMF and gNB present
the pools are far from exhausted and both allocators avoid the in-use
values. -/
theorem allocators_avoid_in_use_when_pool_not_exhausted_witness :
    getNextAvailableIP [sampleAMF, sampleGNB] 0 0
        ∉ ([sampleAMF, sampleGNB].map (fun nf => nf.config.ipAddress)) ∧
    getNextAvailablePort [sampleAMF, sampleGNB] 0
        ∉ ([sampleAMF, sampleGNB].map (fun nf => nf.config.port)) :=
  allocators_avoid_in_use_when_pool_not_exhausted [sampleAMF, sampleGNB] 0 0 0
    ⟨⟨192,168,1,10⟩, by decide, by decide⟩ ⟨8081, by decide, by decide⟩

/-- The in-use addresses of the exhausted topology are exactly the pool. -/
theorem exhaustedIPNFs_map : exhaustedIPNFs.map (fun nf => nf.config.ipAddress) = scanIPs := by
  unfold exhaustedIPNFs
  rw [List.map_map]
  exact List.map_id scanIPs

/-- The in-use ports of the exhausted topology are exactly `8080..9999`. -/
theorem exhaustedPortNFs_map : exhaustedPortNFs.map (fun nf => nf.config.port) = portScanRange := by
  unfold exhaustedPortNFs
  rw [List.map_map]
  exact List.map_id portScanRange

/-- Characterization of the IP allocator in the exhausted case: when no
pool address is free, the fallback value is returned. -/
theorem getNextAvailableIP_of_none (allNFs : List NF) (r1 r2 : ℚ)
    (h : scanIPs.find? (fun ip =>
      decide (ip ∉ allNFs.map (fun nf => nf.config.ipAddress))) = none) :
    getNextAvailableIP allNFs r1 r2
      = ⟨192, 168, (jsFloor (r1 * 254)).toNat + 1, (jsFloor (r2 * 244)).toNat + 10⟩ := by
  unfold getNextAvailableIP
  rw [h]

/-- Characterization of the port allocator in the exhausted case. -/
theorem getNextAvailablePort_of_none (allNFs : List NF) (r : ℚ)
    (h : portScanRange.find? (fun p =>
      decide (p ∉ allNFs.map (fun nf => nf.config.port))) = none) :
    getNextAvailablePort allNFs r = (jsFloor (r * 1000)).toNat + 8000 := by
  unfold getNextAvailablePort
  rw [h]

/-- On the exhausted IP topology the scan finds nothing. -/
theorem exhaustedIPNFs_scan_none :
    scanIPs.find? (fun ip =>
      decide (ip ∉ exhaustedIPNFs.map (fun nf => nf.config.ipAddress))) = none := by
  rw [List.find?_eq_none]
  intro ip hip
  simp [exhaustedIPNFs_map, hip]

/-- On the exhausted port topology the scan finds nothing. -/
theorem exhaustedPortNFs_scan_none :
    portScanRange.find? (fun p =>
      decide (p ∉ exhaustedPortNFs.map (fun nf => nf.config.port))) = none := by
  rw [List.find?_eq_none]
  intro p hp
  simp [exhaustedPortNFs_map, hp]

/-- The embedded `Math.floor` agrees with the mathematical floor. -/
theorem jsFloor_eq (q : ℚ) : jsFloor q = ⌊q⌋ := by
  rw [jsFloor, Rat.floor_def', Rat.floor_def]

set_option maxRecDepth 8000 in
/-- C4 (counterexample): in the exhausted case — all pool values in
use — the pseudo-random fallbacks land back inside the pools: with
draws 0 the IP fallback returns 192.168.1.10, which is in use, and with
draw 1/10 the port fallback returns 8100, which is in use.  This
refutes the claim that the allocators never return an in-use value. -/
theorem allocators_exhausted_return_in_use :
    getNextAvailableIP exhaustedIPNFs 0 0
        ∈ exhaustedIPNFs.map (fun nf => nf.config.ipAddress) ∧
    getNextAvailablePort exhaustedPortNFs (1/10)
        ∈ exhaustedPortNFs.map (fun nf => nf.config.port) := by
  constructor
  · have hc : (jsFloor ((0:ℚ) * 254)).toNat + 1 = 1 := by
      rw [jsFloor_eq]; norm_num
    have hd : (jsFloor ((0:ℚ) * 244)).toNat + 10 = 10 := by
      rw [jsFloor_eq]; norm_num
    rw [getNextAvailableIP_of_none exhaustedIPNFs 0 0 exhaustedIPNFs_scan_none,
      hc, hd, exhaustedIPNFs_map]
    decide
  · have hp : (jsFloor ((1/10 : ℚ) * 1000)).toNat + 8000 = 8100 := by
      rw [jsFloor_eq]
      norm_num
      rfl
    rw [getNextAvailablePort_of_none exhaustedPortNFs (1/10) exhaustedPortNFs_scan_none,
      hp, exhaustedPortNFs_map]
    decide

/-! ## Claim C8 -/

/-- C8: `dockerComposeUpSingleNF` fails with the unknown-service error
when the service name is not in the lookup table and with the conflict
error when an entity of the resolved type already exists; in both cases
the returned state is exactly the input state (no entity created). -/
theorem bring_up_one_failure_paths (topo : Option TopoFixture) (ids : ℕ → String)
    (now : ℕ) (serviceName : String) (st : SimState) :
    (serviceToNFTypeTable.lookup (strToLower serviceName) = none →
      dockerComposeUpSingleNF topo ids now serviceName st = (.unknownService, st)) ∧
    (∀ t nf0, serviceToNFTypeTable.lookup (strToLower serviceName) = some t →
      st.nfs.find? (fun nf => decide (nf.type = t)) = some nf0 →
      dockerComposeUpSingleNF topo ids now serviceName st = (.conflict t, st)) := by
  constructor
  · intro h
    unfold dockerComposeUpSingleNF
    rw [h]
  · intro t nf0 h1 h2
    unfold dockerComposeUpSingleNF
    simp only [h1]
    rw [h2]

/-- Witness for C8: an unknown service name is rejected, and bringing up
`oai-amf` with an AMF already present conflicts; the state is unchanged
in both cases. -/
theorem bring_up_one_failure_paths_witness :
    dockerComposeUpSingleNF none (fun _ => "w") 3 ("no-such-svc") ⟨[sampleAMF], [], [], []⟩
      = (.unknownService, ⟨[sampleAMF], [], [], []⟩) ∧
    dockerComposeUpSingleNF none (fun _ => "w") 3 ("oai-amf") ⟨[sampleAMF], [], [], []⟩
      = (.conflict .AMF, ⟨[sampleAMF], [], [], []⟩) :=
  ⟨(bring_up_one_failure_paths none (fun _ => "w") 3 ("no-such-svc")
      ⟨[sampleAMF], [], [], []⟩).1 (by decide),
   (bring_up_one_failure_paths none (fun _ => "w") 3 ("oai-amf")
      ⟨[sampleAMF], [], [], []⟩).2 .AMF sampleAMF (by decide) (by decide)⟩

/-! ## Claim C9 -/

/-- Helper: the default-creation loop appends one NF per configuration,
in order, whose types are exactly the configurations' types. -/
theorem createDefaultNFsFrom_types (ids : ℕ → String) (now : ℕ)
    (cfgs : List DefaultConfig) (k : ℕ) (st : SimState) :
    (createDefaultNFsFrom ids now cfgs k st).nfs.map (fun nf => nf.type)
      = st.nfs.map (fun nf => nf.type) ++ cfgs.map (fun c => c.type) := by
  induction cfgs generalizing k st with
  | nil => simp [createDefaultNFsFrom]
  | cons c rest ih =>
      rw [createDefaultNFsFrom, ih]
      simp [createNetworkFunction]

/-- C9: on an empty topology, the fixture path imports a topology from
which `filterTopology` has removed every gNB and UE, while the
fetch-failure fallback path creates one NF per default configuration —
a list that contains the radio types gNB and UE.  Hence the
post-fallback topology contains gNB and UE entities while the fixture
path never does. -/
theorem fixture_path_never_creates_radio_types_but_fallback_does
    (t : TopoFixture) (ids : ℕ → String) (now : ℕ) :
    (dockerComposeUp (some t) none ids now emptyState).nfs.filter
        (fun n => decide (n.type = NFType.gNB ∨ n.type = NFType.UE)) = [] ∧
    (dockerComposeUp none none ids now emptyState).nfs.map (fun nf => nf.type)
      = getDefaultNFConfigurations.map (fun c => c.type) ∧
    NFType.gNB ∈ (dockerComposeUp none none ids now emptyState).nfs.map (fun nf => nf.type) ∧
    NFType.UE ∈ (dockerComposeUp none none ids now emptyState).nfs.map (fun nf => nf.type) := by
  have hfall : (dockerComposeUp none none ids now emptyState).nfs.map (fun nf => nf.type)
      = getDefaultNFConfigurations.map (fun c => c.type) := by
    have hrfl : dockerComposeUp none none ids now emptyState
        = createDefaultNFs ids now emptyState := rfl
    rw [hrfl, createDefaultNFs, createDefaultNFsFrom_types]
    simp [emptyState]
  refine ⟨?_, hfall, ?_, ?_⟩
  · have hrfl : dockerComposeUp (some t) none ids now emptyState
        = importData (filterTopology t) now emptyState := rfl
    rw [hrfl]
    rw [List.filter_eq_nil_iff]
    intro a ha
    have ha' : a ∈ (filterTopology t).nfs.map (fun n => topoNFtoNF n now) := by
      simpa [importData, emptyState] using ha
    obtain ⟨b, hb, rfl⟩ := List.mem_map.mp ha'
    have hbn : b ∈ t.nfs.filter (fun nf => decide (nf.type ≠ NFType.gNB ∧ nf.type ≠ NFType.UE)) := hb
    have hbp := List.of_mem_filter hbn
    have hbp' : b.type ≠ NFType.gNB ∧ b.type ≠ NFType.UE := of_decide_eq_true hbp
    simp [topoNFtoNF, hbp'.1, hbp'.2]
  · rw [hfall]; decide
  · rw [hfall]; decide

/-! ## Claim C2 -/

/-- The stabilized entity keeps its key. -/
theorem stabilizedNF_id (now cap : ℕ) (nf : NF) : (stabilizedNF now cap nf).id = nf.id := by
  simp only [stabilizedNF]
  split <;> rfl

/-- The stabilized entity keeps its type. -/
theorem stabilizedNF_type (now cap : ℕ) (nf : NF) : (stabilizedNF now cap nf).type = nf.type := by
  simp only [stabilizedNF]
  split <;> rfl

/-- The stabilized entity is stable. -/
theorem stabilizedNF_status (now cap : ℕ) (nf : NF) :
    (stabilizedNF now cap nf).status = NFStatus.stable := by
  simp only [stabilizedNF]
  split <;> rfl

/-- Whole-entity replacement is observed by a lookup at the same key. -/
theorem getNFById_updateNF (nfs : List NF) (nfId : String) (nf nf2 : NF)
    (h : getNFById nfs nfId = some nf) (h2 : nf2.id = nfId) :
    getNFById (updateNF nfs nfId nf2) nfId = some nf2 := by
  induction nfs with
  | nil => simp [getNFById] at h
  | cons a as ih =>
      by_cases ha : a.id = nfId
      · unfold getNFById updateNF
        simp [ha, h2]
      · unfold getNFById at h ⊢
        unfold updateNF
        simp only [List.map_cons, if_neg ha]
        rw [List.find?_cons_of_neg _ (by simpa using ha)]
        rw [List.find?_cons_of_neg _ (by simpa using ha)] at h
        exact ih h

/-- `addConnection` never touches the NF list. -/
theorem addConnectionOp_nfs (cid : String) (now : ℕ) (src tgt iface : String) (st : SimState) :
    (addConnectionOp cid now src tgt iface st).nfs = st.nfs := by
  unfold addConnectionOp
  split <;> rfl

/-- The UPF wiring only ever appends to the NF list. -/
theorem autoConnect_nfs_extends (topo : Option TopoFixture) (ids : ℕ → String)
    (now : ℕ) (upf : NF) (st : SimState) :
    ∃ ext, (autoConnectUPFToSMFAndExtDn topo ids now upf st).nfs = st.nfs ++ ext := by
  unfold autoConnectUPFToSMFAndExtDn
  by_cases h : upf.type ≠ NFType.UPF
  · rw [if_pos h]
    exact ⟨[], (List.append_nil _).symm⟩
  · rw [if_neg h]
    rcases hs : st.nfs.find? (fun n => decide (n.type = NFType.SMF)) with _ | smf <;>
      rcases he : st.nfs.find? (fun n => decide (n.type = NFType.extdn)) with _ | ext <;>
        simp only [hs, he, addConnectionOp_nfs, createNFFromTopology]
    · exact ⟨_, List.append_assoc _ _ _⟩
    · exact ⟨_, rfl⟩
    · exact ⟨_, rfl⟩
    · exact ⟨[], (List.append_nil _).symm⟩

/-- A lookup that succeeds before the UPF wiring still returns the same
entity afterwards (the wiring only appends). -/
theorem getNFById_autoConnect (topo : Option TopoFixture) (ids : ℕ → String)
    (now : ℕ) (upf : NF) (st : SimState) (nfId : String) (nf : NF)
    (h : getNFById st.nfs nfId = some nf) :
    getNFById (autoConnectUPFToSMFAndExtDn topo ids now upf st).nfs nfId = some nf := by
  obtain ⟨ext, hext⟩ := autoConnect_nfs_extends topo ids now upf st
  rw [hext]
  unfold getNFById at h ⊢
  rw [List.find?_append, h]
  rfl

/-- C2 (amended): when the stabilization timer fires, the handler
re-reads the entity and is a no-op (no mutation, no exception) when the
entity is gone — deletion is tolerated and nothing is resurrected — but
when the entity still exists the handler sets it to `stable`
unconditionally, even when it had been stopped through another path in
the meantime. -/
theorem stabilize_handler_deletion_safe_but_overrides_status
    (topo : Option TopoFixture) (ids : ℕ → String) (now cap : ℕ) (nfId : String)
    (st : SimState) :
    (getNFById st.nfs nfId = none → stabilizeTimerHandler topo ids now cap nfId st = st) ∧
    (∀ nf, getNFById st.nfs nfId = some nf →
      (getNFById (stabilizeTimerHandler topo ids now cap nfId st).nfs nfId).map NF.status
        = some NFStatus.stable) := by
  constructor
  · intro h
    unfold stabilizeTimerHandler
    rw [h]
  · intro nf h
    have hid : nf.id = nfId := by simpa using List.find?_some h
    have hupd : getNFById (updateNF st.nfs nfId (stabilizedNF now cap nf)) nfId
        = some (stabilizedNF now cap nf) :=
      getNFById_updateNF st.nfs nfId nf _ h (by rw [stabilizedNF_id, hid])
    unfold stabilizeTimerHandler
    simp only [h]
    by_cases ht : (stabilizedNF now cap nf).type = NFType.UPF
    · rw [if_pos ht]
      rw [getNFById_autoConnect topo ids now _ _ nfId _ hupd]
      simp [stabilizedNF_status]
    · rw [if_neg ht]
      show (getNFById (updateNF st.nfs nfId (stabilizedNF now cap nf)) nfId).map NF.status
        = some NFStatus.stable
      rw [hupd]
      simp [stabilizedNF_status]

/-- The starting NRF of the stopped-before-timer counterexample. -/
def stoppedScenarioNF : NF := mkSampleNF ("nrf-1") .NRF .starting ⟨192,168,1,10⟩ 8080

/-- A one-entity topology holding the starting NRF. -/
def stoppedScenarioState : SimState := ⟨[stoppedScenarioNF], [], [], []⟩

/-- C2 (counterexample): an NRF is brought to `starting`, explicitly
stopped via `docker stop oai-nrf`, and then its stale stabilization
timer fires: the handler finds the entity (only an existence check, no
status check) and sets it to `stable` — the claim that an NF stopped
before its timer fires remains stopped is false on the code. -/
theorem stale_timer_overrides_explicit_stop :
    (getNFById (dockerStop ("oai-nrf") 7 stoppedScenarioState).nfs ("nrf-1")).map NF.status
      = some NFStatus.stopped ∧
    (getNFById (stabilizeTimerHandler none (fun _ => "") 9 0 ("nrf-1")
        (dockerStop ("oai-nrf") 7 stoppedScenarioState)).nfs ("nrf-1")).map NF.status
      = some NFStatus.stable := by
  constructor
  · decide
  · decide

/-- Witness for C2's amended theorem: the handler is a no-op on a
deleted id, and marks the surviving stopped NRF stable. -/
theorem stabilize_handler_deletion_safe_but_overrides_status_witness :
    stabilizeTimerHandler none (fun _ => "") 9 0 ("ghost") stoppedScenarioState
      = stoppedScenarioState ∧
    (getNFById (stabilizeTimerHandler none (fun _ => "") 9 0 ("nrf-1")
        stoppedScenarioState).nfs ("nrf-1")).map NF.status = some NFStatus.stable :=
  ⟨(stabilize_handler_deletion_safe_but_overrides_status none (fun _ => "") 9 0 ("ghost")
      stoppedScenarioState).1 (by decide),
   (stabilize_handler_deletion_safe_but_overrides_status none (fun _ => "") 9 0 ("nrf-1")
      stoppedScenarioState).2 stoppedScenarioNF (by decide)⟩

/-! ## Claim C3 -/

/-- Received count of a session whose 4 packets all share one Bernoulli
outcome: 4 on success, 0 on failure — never anything in between. -/
theorem countReceived_session (b : Bool) (f : ℕ → ℤ) :
    countReceived ((List.range 4).map (fun i =>
      if b then PacketOutcome.success (f i) else PacketOutcome.timeout))
      = if b then 4 else 0 := by
  cases b <;> simp [countReceived, List.range_succ]

/-- Round-trip times generated from unit-interval draws lie in 1..56 ms. -/
theorem generateResponseTime_bounds (r1 r2 : ℚ)
    (h1 : 0 ≤ r1) (h1' : r1 < 1) (h2 : 0 ≤ r2) (h2' : r2 < 1) :
    1 ≤ generateResponseTime r1 r2 ∧ generateResponseTime r1 r2 ≤ 56 := by
  unfold generateResponseTime
  constructor
  · exact le_max_left _ _
  · apply max_le
    · norm_num
    · rw [jsRound, jsFloor_eq]
      have hlt : r1 * 50 + 1 + (r2 - 1/2) * 10 + 1/2 < 57 := by nlinarith
      have hf : ⌊r1 * 50 + 1 + (r2 - 1/2) * 10 + 1/2⌋ < (57:ℤ) := by
        rw [Int.floor_lt]
        push_cast
        exact hlt
      omega

/-- C3 (counterexample): no choice of topology, source, target, random
stream or stream position makes a completed 4-packet session report 3
received packets — the reachability trial is drawn once per session, so
intermediate received counts (the claim's "≈3–4 received, 0% or 25%
loss") are impossible; only 0 or 4 occur. -/
theorem ping_never_intermediate_received_count :
    ¬ ∃ (allNFs : List NF) (nf : NF) (target : IPv4) (r : ℕ → ℚ) (k : ℕ)
        (results : List PacketOutcome),
      executeWindowsPing allNFs nf target r k = PingOutcome.completed results ∧
      countReceived results = 3 := by
  rintro ⟨allNFs, nf, target, r, k, results, heq, hcount⟩
  unfold executeWindowsPing at heq
  by_cases hv : isValidIP target = true
  · rw [if_neg (not_not_intro hv)] at heq
    by_cases hx : getNetworkFromIP nf.config.ipAddress ≠ getNetworkFromIP target
    · rw [if_pos hx] at heq
      exact absurd heq (by simp)
    · rw [if_neg hx] at heq
      injection heq with h
      rw [← h, countReceived_session] at hcount
      rcases hb : isTargetReachable allNFs nf target (r k) <;>
        rw [hb] at hcount <;> simp at hcount
  · rw [if_pos hv] at heq
    exact absurd heq (by simp)

/-- C3 (amended): a per-target command ping of a valid same-subnet
address completes a 4-packet session in which all packets share a single
Bernoulli trial drawn at the computed success probability: the received
count is 4 when the one draw succeeds and 0 when it fails (never an
intermediate value), and every successful packet's round-trip time lies
in [1, 56] ms. -/
theorem ping_session_single_bernoulli (allNFs : List NF) (nf : NF) (target : IPv4)
    (r : ℕ → ℚ) (k : ℕ)
    (hv : isValidIP target = true)
    (hs : getNetworkFromIP nf.config.ipAddress = getNetworkFromIP target)
    (hr : ∀ n, 0 ≤ r n ∧ r n < 1) :
    ∃ results, executeWindowsPing allNFs nf target r k = PingOutcome.completed results ∧
      countReceived results = (if isTargetReachable allNFs nf target (r k) then 4 else 0) ∧
      (∀ q ∈ results, ∀ time, q = PacketOutcome.success time → 1 ≤ time ∧ time ≤ 56) := by
  refine ⟨(List.range 4).map (fun i =>
      if isTargetReachable allNFs nf target (r k) then
        PacketOutcome.success (generateResponseTime (r (k + 1 + 2*i)) (r (k + 2 + 2*i)))
      else PacketOutcome.timeout), ?_, countReceived_session _ _, ?_⟩
  · simp [executeWindowsPing, hv, hs]
  · intro q hq time hqt
    obtain ⟨i, hi, rfl⟩ := List.mem_map.mp hq
    by_cases hb : isTargetReachable allNFs nf target (r k) = true
    · rw [if_pos hb] at hqt
      injection hqt with ht
      rw [← ht]
      exact generateResponseTime_bounds _ _ (hr _).1 (hr _).2 (hr _).1 (hr _).2
    · rw [if_neg hb] at hqt
      exact absurd hqt (by simp)

/-- Witness for C3's amended theorem: the stable AMF pinging the stable
gNB on the same subnet with the all-zero random stream (the one draw
succeeds, 4 received, all times in range). -/
theorem ping_session_single_bernoulli_witness :
    ∃ results,
      executeWindowsPing [sampleAMF, sampleGNB] sampleAMF ⟨192,168,1,21⟩ (fun _ => 0) 0
        = PingOutcome.completed results ∧
      countReceived results
        = (if isTargetReachable [sampleAMF, sampleGNB] sampleAMF ⟨192,168,1,21⟩ ((fun _ => (0:ℚ)) 0)
            then 4 else 0) ∧
      (∀ q ∈ results, ∀ time, q = PacketOutcome.success time → 1 ≤ time ∧ time ≤ 56) :=
  ping_session_single_bernoulli [sampleAMF, sampleGNB] sampleAMF ⟨192,168,1,21⟩
    (fun _ => 0) 0 (by decide) (by decide) (fun _ => ⟨le_refl 0, by norm_num⟩)

/-! ## Claim C1 -/

/-- A fixture entity for the concrete 10-type core fixture below. -/
def coreFixtureNF (i : String) (t : NFType) (d : ℕ) : TopoNF :=
  { id := i, type := t, name := i, ipAddress := some ⟨192,168,1,d⟩, port := some 8080,
    httpProtocol := some "HTTP/2", status := NFStatus.stable, statusTimestamp := 0 }

/-- A concrete topology fixture holding the ten core (non-radio) default
types, as the shipped `one-click.json` does for the purposes of the
bring-up-all scenario (no gNB/UE survive `filterTopology` in any case). -/
def coreOnlyFixture : TopoFixture :=
  { nfs :=
      [ coreFixtureNF ("f-nrf") .NRF 10, coreFixtureNF ("f-amf") .AMF 20,
        coreFixtureNF ("f-smf") .SMF 30, coreFixtureNF ("f-upf") .UPF 40,
        coreFixtureNF ("f-ausf") .AUSF 50, coreFixtureNF ("f-udm") .UDM 60,
        coreFixtureNF ("f-udr") .UDR 70, coreFixtureNF ("f-pcf") .PCF 80,
        coreFixtureNF ("f-nssf") .NSSF 90, coreFixtureNF ("f-mysql") .MySQL 100 ],
    connections := [], buses := [], busConnections := [] }

/-- A concrete generated-id supply. -/
def witnessIds : ℕ → String := fun n => "gen-" ++ toString n

/-- A topology holding one NF of every default type (the fetch-failure
fallback result). -/
def fullTypeState : SimState := createDefaultNFs witnessIds 5 emptyState

/-- C1 (amended): `bringUpAll` reports success with zero side effects
exactly on topologies that already contain every type of the default
configuration list; invoked twice in succession it creates, on the
second call, one NF per default type still missing — and after a
fixture-based first bring-up the radio types gNB and UE are missing
(the fixture import filters them out), so the second call creates
exactly those two. -/
theorem bring_up_all_idempotent_only_on_full_type_set :
    (∀ (f1 f2 : Option TopoFixture) (ids : ℕ → String) (now : ℕ) (st : SimState),
      st.nfs ≠ [] →
      (∀ c ∈ getDefaultNFConfigurations, c.type ∈ st.nfs.map (fun nf => nf.type)) →
      dockerComposeUp f1 f2 ids now st = st) ∧
    ((dockerComposeUp (some coreOnlyFixture) (some coreOnlyFixture) witnessIds 5
        (dockerComposeUp (some coreOnlyFixture) (some coreOnlyFixture) witnessIds 5
          emptyState)).nfs.map (fun nf => nf.type)
      = ((dockerComposeUp (some coreOnlyFixture) (some coreOnlyFixture) witnessIds 5
          emptyState).nfs.map (fun nf => nf.type)) ++ [NFType.gNB, NFType.UE]) := by
  constructor
  · intro f1 f2 ids now st hne hall
    have hni : st.nfs.isEmpty = false := by
      cases hsn : st.nfs with
      | nil => exact absurd hsn hne
      | cons a as => rfl
    have hmiss : getDefaultNFConfigurations.filter
        (fun c => decide (c.type ∉ st.nfs.map (fun nf => nf.type))) = [] := by
      rw [List.filter_eq_nil_iff]
      intro c hc
      simp [hall c hc]
    unfold dockerComposeUp
    dsimp only
    rw [hni, hmiss]
    simp
  · decide

/-- C1 (counterexample): after a first successful fixture-based
bring-up (10 entities imported), the second invocation is not free of
side effects — it creates two further NFs (the missing default types
gNB and UE), refuting "zero additional entities on the second call". -/
theorem bring_up_all_second_call_creates_entities :
    (dockerComposeUp (some coreOnlyFixture) (some coreOnlyFixture) witnessIds 5
        (dockerComposeUp (some coreOnlyFixture) (some coreOnlyFixture) witnessIds 5
          emptyState)).nfs.length
      = (dockerComposeUp (some coreOnlyFixture) (some coreOnlyFixture) witnessIds 5
          emptyState).nfs.length + 2 := by
  decide

/-- Witness for C1's amended theorem: on a topology already holding all
12 default types, `bringUpAll` leaves the state untouched. -/
theorem bring_up_all_idempotent_only_on_full_type_set_witness :
    dockerComposeUp none none witnessIds 6 fullTypeState = fullTypeState :=
  (bring_up_all_idempotent_only_on_full_type_set).1 none none witnessIds 6 fullTypeState
    (by decide) (by decide)

/-! ## Claim C7 -/

/-- The entity built by the wiring has the requested type. -/
theorem buildNFFromTopology_type (topo : Option TopoFixture) (genId : String) (now : ℕ)
    (t : NFType) (cfg : Option DefaultConfig) :
    (buildNFFromTopology topo genId now t cfg).type = t := by
  simp only [buildNFFromTopology]
  split <;> rfl

/-- Type of the wiring-created SMF. -/
theorem autoWiredSMF_type (topo : Option TopoFixture) (ids : ℕ → String) (now : ℕ) :
    (autoWiredSMF topo ids now).type = NFType.SMF :=
  buildNFFromTopology_type _ _ _ _ _

/-- Type of the wiring-created ext-dn. -/
theorem autoWiredExtDn_type (topo : Option TopoFixture) (ids : ℕ → String) (now : ℕ) :
    (autoWiredExtDn topo ids now).type = NFType.extdn :=
  buildNFFromTopology_type _ _ _ _ _

/-- State produced by the UPF wiring from a topology with no SMF, no
ext-dn and no connections: both peers created once, both connections
created once. -/
theorem autoConnect_fresh_state (topo : Option TopoFixture) (ids : ℕ → String)
    (now : ℕ) (upf : NF) (st : SimState)
    (hupf : upf.type = NFType.UPF)
    (hsmf : st.nfs.find? (fun n => decide (n.type = NFType.SMF)) = none)
    (hext : st.nfs.find? (fun n => decide (n.type = NFType.extdn)) = none)
    (hconns : st.conns = [])
    (hid : (autoWiredSMF topo ids now).id ≠ (autoWiredExtDn topo ids now).id) :
    autoConnectUPFToSMFAndExtDn topo ids now upf st
      = { nfs := st.nfs ++ [autoWiredSMF topo ids now, autoWiredExtDn topo ids now],
          conns :=
            [mkAutoConnection (ids 2) now upf.id (autoWiredSMF topo ids now).id ("N4"),
             mkAutoConnection (ids 3) now (autoWiredExtDn topo ids now).id upf.id ("N6")],
          buses := st.buses, busConns := st.busConns } := by
  have hpc1 : ¬ (((mkAutoConnection (ids 2) now upf.id (autoWiredSMF topo ids now).id
        ("N4")).sourceId = (autoWiredExtDn topo ids now).id ∧
      (mkAutoConnection (ids 2) now upf.id (autoWiredSMF topo ids now).id
        ("N4")).targetId = upf.id) ∨
      ((mkAutoConnection (ids 2) now upf.id (autoWiredSMF topo ids now).id
        ("N4")).sourceId = upf.id ∧
      (mkAutoConnection (ids 2) now upf.id (autoWiredSMF topo ids now).id
        ("N4")).targetId = (autoWiredExtDn topo ids now).id)) := by
    rintro (⟨h1, h2⟩ | ⟨h1, h2⟩)
    · exact hid ((show (autoWiredSMF topo ids now).id = upf.id from h2).trans
        (show upf.id = (autoWiredExtDn topo ids now).id from h1))
    · exact hid (show (autoWiredSMF topo ids now).id = (autoWiredExtDn topo ids now).id from h2)
  unfold autoConnectUPFToSMFAndExtDn
  rw [if_neg (not_not_intro hupf)]
  simp only [hsmf, hext, createNFFromTopology]
  unfold addConnectionOp
  simp only [hconns]
  simp only [show buildNFFromTopology topo (ids 0) now NFType.SMF
      (getDefaultNFConfigurations.find? (fun c => decide (c.type = NFType.SMF)))
      = autoWiredSMF topo ids now from rfl,
    show buildNFFromTopology topo (ids 1) now NFType.extdn (some extDnDefaultConfig)
      = autoWiredExtDn topo ids now from rfl]
  simp [hpc1, List.append_assoc]

/-- Triggering the UPF wiring a second time creates nothing: the peers
are found and both endpoint pairs are already connected. -/
theorem autoConnect_idempotent_after_fresh (topo : Option TopoFixture) (ids : ℕ → String)
    (now : ℕ) (upf : NF) (st : SimState)
    (hupf : upf.type = NFType.UPF)
    (hsmf : st.nfs.find? (fun n => decide (n.type = NFType.SMF)) = none)
    (hext : st.nfs.find? (fun n => decide (n.type = NFType.extdn)) = none)
    (hconns : st.conns = [])
    (hid : (autoWiredSMF topo ids now).id ≠ (autoWiredExtDn topo ids now).id) :
    autoConnectUPFToSMFAndExtDn topo ids now upf
        (autoConnectUPFToSMFAndExtDn topo ids now upf st)
      = autoConnectUPFToSMFAndExtDn topo ids now upf st := by
  rw [autoConnect_fresh_state topo ids now upf st hupf hsmf hext hconns hid]
  have hfs : (st.nfs ++ [autoWiredSMF topo ids now, autoWiredExtDn topo ids now]).find?
      (fun n => decide (n.type = NFType.SMF)) = some (autoWiredSMF topo ids now) := by
    rw [List.find?_append, hsmf]
    show (List.find? _ _ : Option NF) = _
    rw [List.find?_cons_of_pos _ (by simp [autoWiredSMF_type])]
  have hfe : (st.nfs ++ [autoWiredSMF topo ids now, autoWiredExtDn topo ids now]).find?
      (fun n => decide (n.type = NFType.extdn)) = some (autoWiredExtDn topo ids now) := by
    rw [List.find?_append, hext]
    show (List.find? _ _ : Option NF) = _
    rw [List.find?_cons_of_neg _ (by simp [autoWiredSMF_type]),
      List.find?_cons_of_pos _ (by simp [autoWiredExtDn_type])]
  have hany1 : (([mkAutoConnection (ids 2) now upf.id (autoWiredSMF topo ids now).id ("N4"),
      mkAutoConnection (ids 3) now (autoWiredExtDn topo ids now).id upf.id ("N6")]).any
      (fun c => decide ((c.sourceId = upf.id ∧ c.targetId = (autoWiredSMF topo ids now).id) ∨
        (c.sourceId = (autoWiredSMF topo ids now).id ∧ c.targetId = upf.id)))) = true := by
    apply List.any_eq_true.mpr
    exact ⟨mkAutoConnection (ids 2) now upf.id (autoWiredSMF topo ids now).id ("N4"),
      List.mem_cons_self _ _, decide_eq_true (Or.inl ⟨rfl, rfl⟩)⟩
  have hany2 : (([mkAutoConnection (ids 2) now upf.id (autoWiredSMF topo ids now).id ("N4"),
      mkAutoConnection (ids 3) now (autoWiredExtDn topo ids now).id upf.id ("N6")]).any
      (fun c => decide ((c.sourceId = (autoWiredExtDn topo ids now).id ∧ c.targetId = upf.id) ∨
        (c.sourceId = upf.id ∧ c.targetId = (autoWiredExtDn topo ids now).id)))) = true := by
    apply List.any_eq_true.mpr
    refine ⟨mkAutoConnection (ids 3) now (autoWiredExtDn topo ids now).id upf.id ("N6"),
      ?_, decide_eq_true (Or.inl ⟨rfl, rfl⟩)⟩
    exact List.mem_cons_of_mem _ (List.mem_cons_self _ _)
  have hinner : addConnectionOp (ids 2) now upf.id (autoWiredSMF topo ids now).id ("N4")
      { nfs := st.nfs ++ [autoWiredSMF topo ids now, autoWiredExtDn topo ids now],
        conns := [mkAutoConnection (ids 2) now upf.id (autoWiredSMF topo ids now).id ("N4"),
          mkAutoConnection (ids 3) now (autoWiredExtDn topo ids now).id upf.id ("N6")],
        buses := st.buses, busConns := st.busConns }
      = { nfs := st.nfs ++ [autoWiredSMF topo ids now, autoWiredExtDn topo ids now],
          conns := [mkAutoConnection (ids 2) now upf.id (autoWiredSMF topo ids now).id ("N4"),
            mkAutoConnection (ids 3) now (autoWiredExtDn topo ids now).id upf.id ("N6")],
          buses := st.buses, busConns := st.busConns } := by
    unfold addConnectionOp
    exact if_pos hany1
  have houter : addConnectionOp (ids 3) now (autoWiredExtDn topo ids now).id upf.id ("N6")
      { nfs := st.nfs ++ [autoWiredSMF topo ids now, autoWiredExtDn topo ids now],
        conns := [mkAutoConnection (ids 2) now upf.id (autoWiredSMF topo ids now).id ("N4"),
          mkAutoConnection (ids 3) now (autoWiredExtDn topo ids now).id upf.id ("N6")],
        buses := st.buses, busConns := st.busConns }
      = { nfs := st.nfs ++ [autoWiredSMF topo ids now, autoWiredExtDn topo ids now],
          conns := [mkAutoConnection (ids 2) now upf.id (autoWiredSMF topo ids now).id ("N4"),
            mkAutoConnection (ids 3) now (autoWiredExtDn topo ids now).id upf.id ("N6")],
          buses := st.buses, busConns := st.busConns } := by
    unfold addConnectionOp
    exact if_pos hany2
  unfold autoConnectUPFToSMFAndExtDn
  rw [if_neg (not_not_intro hupf)]
  simp only [hfs, hfe]
  rw [hinner, houter]

/-- C7: when a UPF stabilizes in a topology with no SMF, no ext-dn and
no connections, the auto-wiring ensures exactly one SMF and exactly one
ext-dn exist (created from the fixture entry or the default
configuration), together with exactly one UPF→SMF Connection on
interface N4 and exactly one ext-dn→UPF Connection on interface N6 —
and triggering the policy a second time changes nothing. -/
theorem upf_wiring_exactly_once (topo : Option TopoFixture) (ids : ℕ → String)
    (now : ℕ) (upf : NF) (st : SimState)
    (hupf : upf.type = NFType.UPF)
    (hsmf : st.nfs.find? (fun n => decide (n.type = NFType.SMF)) = none)
    (hext : st.nfs.find? (fun n => decide (n.type = NFType.extdn)) = none)
    (hconns : st.conns = [])
    (hid : (autoWiredSMF topo ids now).id ≠ (autoWiredExtDn topo ids now).id) :
    ((autoConnectUPFToSMFAndExtDn topo ids now upf st).nfs
        = st.nfs ++ [autoWiredSMF topo ids now, autoWiredExtDn topo ids now]) ∧
    (((autoConnectUPFToSMFAndExtDn topo ids now upf st).nfs.filter
        (fun n => decide (n.type = NFType.SMF))).length = 1) ∧
    (((autoConnectUPFToSMFAndExtDn topo ids now upf st).nfs.filter
        (fun n => decide (n.type = NFType.extdn))).length = 1) ∧
    ((autoConnectUPFToSMFAndExtDn topo ids now upf st).conns
        = [mkAutoConnection (ids 2) now upf.id (autoWiredSMF topo ids now).id ("N4"),
           mkAutoConnection (ids 3) now (autoWiredExtDn topo ids now).id upf.id ("N6")]) ∧
    (autoConnectUPFToSMFAndExtDn topo ids now upf
        (autoConnectUPFToSMFAndExtDn topo ids now upf st)
      = autoConnectUPFToSMFAndExtDn topo ids now upf st) := by
  have hfresh := autoConnect_fresh_state topo ids now upf st hupf hsmf hext hconns hid
  have hnil : st.nfs.filter (fun n => decide (n.type = NFType.SMF)) = [] := by
    rw [List.filter_eq_nil_iff]
    intro a ha
    have hne := List.find?_eq_none.mp hsmf a ha
    simpa using hne
  have hnile : st.nfs.filter (fun n => decide (n.type = NFType.extdn)) = [] := by
    rw [List.filter_eq_nil_iff]
    intro a ha
    have hne := List.find?_eq_none.mp hext a ha
    simpa using hne
  refine ⟨by rw [hfresh], ?_, ?_, by rw [hfresh],
    autoConnect_idempotent_after_fresh topo ids now upf st hupf hsmf hext hconns hid⟩
  · rw [hfresh]
    show ((st.nfs ++ [autoWiredSMF topo ids now, autoWiredExtDn topo ids now]).filter
      (fun n => decide (n.type = NFType.SMF))).length = 1
    rw [List.filter_append, hnil]
    simp [autoWiredSMF_type, autoWiredExtDn_type]
  · rw [hfresh]
    show ((st.nfs ++ [autoWiredSMF topo ids now, autoWiredExtDn topo ids now]).filter
      (fun n => decide (n.type = NFType.extdn))).length = 1
    rw [List.filter_append, hnile]
    simp [autoWiredSMF_type, autoWiredExtDn_type]

/-- Witness for C7: a lone stable UPF, no fixture, fresh generated ids:
one SMF, one ext-dn, the N4 and N6 connections, and idempotence. -/
theorem upf_wiring_exactly_once_witness :
    ((autoConnectUPFToSMFAndExtDn none witnessIds 7 sampleUPF sampleUPFState).nfs
        = sampleUPFState.nfs ++ [autoWiredSMF none witnessIds 7, autoWiredExtDn none witnessIds 7]) ∧
    (((autoConnectUPFToSMFAndExtDn none witnessIds 7 sampleUPF sampleUPFState).nfs.filter
        (fun n => decide (n.type = NFType.SMF))).length = 1) ∧
    (((autoConnectUPFToSMFAndExtDn none witnessIds 7 sampleUPF sampleUPFState).nfs.filter
        (fun n => decide (n.type = NFType.extdn))).length = 1) ∧
    ((autoConnectUPFToSMFAndExtDn none witnessIds 7 sampleUPF sampleUPFState).conns
        = [mkAutoConnection (witnessIds 2) 7 sampleUPF.id (autoWiredSMF none witnessIds 7).id ("N4"),
           mkAutoConnection (witnessIds 3) 7 (autoWiredExtDn none witnessIds 7).id sampleUPF.id ("N6")]) ∧
    (autoConnectUPFToSMFAndExtDn none witnessIds 7 sampleUPF
        (autoConnectUPFToSMFAndExtDn none witnessIds 7 sampleUPF sampleUPFState)
      = autoConnectUPFToSMFAndExtDn none witnessIds 7 sampleUPF sampleUPFState) :=
  upf_wiring_exactly_once none witnessIds 7 sampleUPF sampleUPFState
    (by decide) (by decide) (by decide) (by decide) (by decide)
